import Mathlib

/-!
Shallow embedding of the TaxPay backend (src/main.py, src/database.py,
src/schemas.py): the document-store adapter, credential manager, token
service, authentication gate and the resource operations, together with
theorems settling the specification's claims.

Modelling conventions:
* The MongoDB collections touched by the service are append-only
  (`create_document` only ever calls `insert_one`; no update or delete is
  exposed).  A collection is therefore modelled as a Lean list in insertion
  order, and `find(filter).limit(n)` — issued without any sort — is modelled
  as filtering that list in order and taking the first `n` elements
  (natural order of an append-only collection).
* JSON float values (sector percentages) are modelled as rationals: the
  service only stores and returns them, never computes with them.
* `time.time()` / `datetime.utcnow()` are modelled by an explicit `now : Nat`
  (seconds) argument; the fresh bcrypt salt by an explicit `salt : Nat`
  argument.  Mongo `_id` values are not modelled (no claim mentions them).
-/

namespace TaxPay

/-- Sector allocation map: a JSON object mapping sector name to percentage
(`Dict[str, float]` in schemas.py), modelled as an association list with
rational values. -/
abbrev SectorMap := List (String × Rat)

/-- A document of the `user` collection as inserted by `register`
(src/main.py lines 101-107) and timestamped by `create_document`. -/
structure UserDoc where
  email : String
  password_hash : String
  name : String
  pan : String
  created_at : Nat
  updated_at : Nat
  deriving Repr, DecidableEq

/-- A document of the `allocation` collection as inserted by
`save_allocation` (src/main.py line 141) and timestamped by
`create_document`. -/
structure AllocationDoc where
  user_email : String
  sectors : SectorMap
  created_at : Nat
  updated_at : Nat
  deriving Repr, DecidableEq

/-- A document of the `receipt` collection as inserted by `pay_demo`
(src/main.py lines 173-182) and timestamped by `create_document`. -/
structure ReceiptDoc where
  user_email : String
  amount : Int
  currency : String
  regime : String
  allocation : SectorMap
  payment_method : String
  reference : String
  created_at : Nat
  updated_at : Nat
  deriving Repr, DecidableEq

/-- The document store state: the three business collections of the
service, each a list in insertion order (src/database.py: `insert_one`
appends; `find` without sort returns natural = insertion order). -/
structure DB where
  users : List UserDoc
  allocations : List AllocationDoc
  receipts : List ReceiptDoc
  deriving Repr, DecidableEq

/-- The store with all collections empty. -/
def DB.empty : DB := ⟨[], [], []⟩

/-- Model of `get_documents("allocation", filter, limit)`
(src/database.py lines 34-39) with the exact-match filter on `user_email`
used by the allocation endpoints. -/
def get_documents_allocation (db : DB) (email : String) (limit : Nat) :
    List AllocationDoc :=
  (db.allocations.filter (fun d => d.user_email == email)).take limit

/-- Model of the `GET /allocations` handler `get_allocation`
(src/main.py lines 129-134): a limit-1 query for the user, empty map if no
record. -/
def get_allocation (db : DB) (user_email : String) : SectorMap :=
  match get_documents_allocation db user_email 1 with
  | [] => []
  | d :: _ => d.sectors

/-- Model of the `POST /allocations` handler `save_allocation`
(src/main.py lines 137-147): the existence check is performed but both
branches insert a new record via `create_document` (which adds the two
timestamps and appends). -/
def save_allocation (db : DB) (now : Nat) (user_email : String)
    (sectors : SectorMap) : DB :=
  let existing := get_documents_allocation db user_email 1
  let doc : AllocationDoc :=
    { user_email := user_email, sectors := sectors
      created_at := now, updated_at := now }
  if existing.isEmpty then
    { db with allocations := db.allocations ++ [doc] }
  else
    { db with allocations := db.allocations ++ [doc] }

/-- A sequence of allocation saves for one user, applied in order. -/
def runSaves (db : DB) (u : String) (saves : List (Nat × SectorMap)) : DB :=
  saves.foldl (fun d tm => save_allocation d tm.1 u tm.2) db

theorem save_allocation_allocations (db : DB) (now : Nat) (u : String)
    (m : SectorMap) :
    (save_allocation db now u m).allocations =
      db.allocations ++ [⟨u, m, now, now⟩] := by
  simp [save_allocation]

theorem save_allocation_users (db : DB) (now : Nat) (u : String)
    (m : SectorMap) : (save_allocation db now u m).users = db.users := by
  simp [save_allocation]

theorem runSaves_allocations (u : String) (saves : List (Nat × SectorMap))
    (db : DB) :
    (runSaves db u saves).allocations =
      db.allocations ++
        saves.map (fun tm => (⟨u, tm.2, tm.1, tm.1⟩ : AllocationDoc)) := by
  induction saves generalizing db with
  | nil => simp [runSaves]
  | cons a rest ih =>
    have hstep : runSaves db u (a :: rest) =
        runSaves (save_allocation db a.1 u a.2) u rest := rfl
    rw [hstep, ih, save_allocation_allocations]
    simp

theorem runSaves_filter (db : DB) (u : String)
    (saves : List (Nat × SectorMap)) :
    ((runSaves db u saves).allocations.filter (fun d => d.user_email == u)) =
      (db.allocations.filter (fun d => d.user_email == u)) ++
        saves.map (fun tm => (⟨u, tm.2, tm.1, tm.1⟩ : AllocationDoc)) := by
  rw [runSaves_allocations, List.filter_append]
  congr 1
  rw [List.filter_eq_self]
  intro a ha
  rcases List.mem_map.mp ha with ⟨tm, _, rfl⟩
  simp

/-- C1 (amended): starting from a store with no allocation record for the
user, after one or more allocation saves the Get Allocation operation
returns the sector map of the EARLIEST inserted allocation record for that
user — the first match under the store's insertion-order query — not the
most recently inserted one. -/
theorem get_allocation_returns_first_saved (db : DB) (u : String) (t : Nat)
    (m : SectorMap) (saves : List (Nat × SectorMap))
    (h : db.allocations.filter (fun d => d.user_email == u) = []) :
    get_allocation (runSaves db u ((t, m) :: saves)) u = m := by
  unfold get_allocation get_documents_allocation
  rw [runSaves_filter, h]
  simp

/-- C1 witness: concretely, saving once and then again returns the first
map. -/
theorem get_allocation_returns_first_saved_witness :
    (DB.empty.allocations.filter (fun d => d.user_email == "u") = []) ∧
      get_allocation
        (runSaves DB.empty "u" [(10, [("a", 1)]), (20, [("b", 2)])]) "u" =
        [("a", 1)] :=
  ⟨rfl, get_allocation_returns_first_saved DB.empty "u" 10 [("a", 1)]
    [(20, [("b", 2)])] rfl⟩

/-- C1 counterexample: after saving the map a=1 and then the map b=2 for
user `u`, Get Allocation returns a=1 (the earliest record), not the most
recently inserted map b=2 as the claim states. -/
theorem get_allocation_not_latest :
    get_allocation
        (runSaves DB.empty "u" [(10, [("a", 1)]), (20, [("b", 2)])]) "u" =
        [("a", 1)] ∧
      get_allocation
        (runSaves DB.empty "u" [(10, [("a", 1)]), (20, [("b", 2)])]) "u" ≠
        [("b", 2)] := by
  constructor
  · rfl
  · decide

/-- C4: when exactly one allocation save has occurred for the user (no
prior allocation record), fetching returns exactly the saved sector map. -/
theorem save_then_get_roundtrip (db : DB) (t : Nat) (u : String)
    (m : SectorMap)
    (h : db.allocations.filter (fun d => d.user_email == u) = []) :
    get_allocation (save_allocation db t u m) u = m := by
  unfold get_allocation get_documents_allocation
  rw [save_allocation_allocations, List.filter_append, h]
  simp

/-- C4 witness: concrete single save and fetch on the empty store. -/
theorem save_then_get_roundtrip_witness :
    (DB.empty.allocations.filter (fun d => d.user_email == "u") = []) ∧
      get_allocation (save_allocation DB.empty 7 "u" [("health", 50)]) "u" =
        [("health", 50)] :=
  ⟨rfl, save_then_get_roundtrip DB.empty 7 "u" [("health", 50)] rfl⟩

/-! ## Credential manager

Model of `pwd_context = CryptContext(schemes=["bcrypt"])` and the helpers
`hash_password` / `verify_password` (src/main.py lines 26, 46-51).  The
external library's documented behaviour is modelled: `CryptContext.verify`
first identifies the hash string's scheme from its `$2b$` prefix and RAISES
`UnknownHashError` when the string matches no configured scheme (it raises
`MalformedHashError` for an identified but structurally broken hash); only
for a well-formed hash does it recompute and compare.  The one-way bcrypt
digest is idealized as the password itself (an injective digest) and the
fresh salt is rendered in unary, so that verification semantics — compare
the recomputed digest against the stored one — is preserved exactly. -/

/-- Failure raised by the modelled passlib verify call. -/
inductive PasslibError where
  | unknownHash
  | malformedHash
  deriving Repr, DecidableEq

/-- Strip a fixed scheme marker from the front of a hash string, if
present. -/
def stripPfx (pfx l : List Char) : Option (List Char) :=
  if pfx.isPrefixOf l then some (l.drop pfx.length) else none

/-- Parse the unary salt field then the digest from a bcrypt hash body. -/
def parseSaltDigest : List Char → Option (Nat × List Char)
  | [] => none
  | c :: rest =>
    if c = '$' then some (0, rest)
    else if c = 'x' then
      match parseSaltDigest rest with
      | none => none
      | some sd => some (sd.1 + 1, sd.2)
    else none

/-- The characters of a modelled bcrypt hash: scheme and cost marker,
unary salt, separator, idealized digest. -/
def hashChars (password : List Char) (salt : Nat) : List Char :=
  "$2b$12$".data ++ (List.replicate salt 'x' ++ ('$' :: password))

/-- Model of `hash_password` (src/main.py lines 46-47):
`pwd_context.hash(password)` with the fresh random salt made explicit. -/
def hash_password (password : String) (salt : Nat) : String :=
  String.mk (hashChars password.data salt)

/-- Scheme identification performed by `CryptContext.verify`: does the
stored string carry the bcrypt scheme marker? -/
def bcryptIdentify (h : List Char) : Bool := "$2b$".data.isPrefixOf h

/-- Core of the modelled `CryptContext.verify`: identify, parse, then
compare the recomputed digest with the stored one. -/
def verifyChars (password h : List Char) : Except PasslibError Bool :=
  if bcryptIdentify h then
    match stripPfx "$2b$12$".data h with
    | none => Except.error PasslibError.malformedHash
    | some body =>
      match parseSaltDigest body with
      | none => Except.error PasslibError.malformedHash
      | some sd => Except.ok (sd.2 == password)
  else
    Except.error PasslibError.unknownHash

/-- Model of `verify_password` (src/main.py lines 50-51): the bare
`pwd_context.verify(password, hashed)` call — any library error
propagates. -/
def verify_password (password hashed : String) : Except PasslibError Bool :=
  verifyChars password.data hashed.data

theorem isPrefixOf_append_self (l r : List Char) :
    l.isPrefixOf (l ++ r) = true := by
  induction l with
  | nil => cases r <;> rfl
  | cons c cs ih => simp [List.isPrefixOf, ih]

theorem stripPfx_append (pfx rest : List Char) :
    stripPfx pfx (pfx ++ rest) = some rest := by
  simp [stripPfx, isPrefixOf_append_self]

theorem parseSaltDigest_encode (s : Nat) (d : List Char) :
    parseSaltDigest (List.replicate s 'x' ++ ('$' :: d)) = some (s, d) := by
  induction s with
  | zero => simp [parseSaltDigest]
  | succ n ih =>
    have hx : ('x' : Char) ≠ '$' := by decide
    simp [List.replicate_succ, parseSaltDigest, hx, ih]

theorem verify_hash_eval (p p0 : String) (s : Nat) :
    verify_password p (hash_password p0 s) =
      Except.ok (p0.data == p.data) := by
  show verifyChars p.data (hashChars p0.data s) = Except.ok (p0.data == p.data)
  have hid : bcryptIdentify (hashChars p0.data s) = true := by
    have hsplit : ("$2b$12$".data : List Char) = "$2b$".data ++ "12$".data :=
      rfl
    unfold bcryptIdentify hashChars
    rw [hsplit, List.append_assoc]
    exact isPrefixOf_append_self _ _
  unfold verifyChars
  rw [hid]
  simp only [if_true]
  simp only [hashChars, stripPfx_append, parseSaltDigest_encode]

theorem string_eq_of_data_eq {a b : String} (h : a.data = b.data) :
    a = b := by
  cases a
  cases b
  exact congrArg String.mk h

/-- C2 (amended): for a stored hash produced by the hashing operation,
verification returns `true` exactly when the password matches and `false`
on a mismatch; but on a hash string that the library cannot identify as a
bcrypt hash (e.g. the empty string) the verify call RAISES
`UnknownHashError` — it does not return `false`. -/
theorem verify_password_spec :
    (∀ p p0 : String, ∀ s : Nat,
      (verify_password p (hash_password p0 s) = Except.ok true ↔ p0 = p))
    ∧ (∀ p p0 : String, ∀ s : Nat, p0 ≠ p →
      verify_password p (hash_password p0 s) = Except.ok false)
    ∧ (∀ p h : String, bcryptIdentify h.data = false →
      verify_password p h = Except.error PasslibError.unknownHash) := by
  refine ⟨?_, ?_, ?_⟩
  · intro p p0 s
    rw [verify_hash_eval]
    constructor
    · intro he
      have hb : (p0.data == p.data) = true := by
        injection he
      exact string_eq_of_data_eq (by simpa using hb)
    · rintro rfl
      simp
  · intro p p0 s hne
    rw [verify_hash_eval]
    have hd : p0.data ≠ p.data := fun hh => hne (string_eq_of_data_eq hh)
    simp [hd]
  · intro p h hid
    unfold verify_password verifyChars
    rw [hid]
    simp

/-- C2 witness: a matching password verifies true, a mismatch verifies
false, and an unidentifiable stored hash raises. -/
theorem verify_password_spec_witness :
    verify_password "pw" (hash_password "pw" 2) = Except.ok true
    ∧ verify_password "other" (hash_password "pw" 2) = Except.ok false
    ∧ verify_password "pw" "nothash" = Except.error PasslibError.unknownHash := by
  refine ⟨?_, ?_, ?_⟩
  · exact (verify_password_spec.1 "pw" "pw" 2).mpr rfl
  · exact verify_password_spec.2.1 "other" "pw" 2 (by decide)
  · exact verify_password_spec.2.2 "pw" "nothash" (by decide)

/-- C2 counterexample: the login path hands `verify` the stored
`password_hash` (empty string when absent); on that malformed input the
call raises `UnknownHashError` instead of returning `false`, refuting
"never throws on malformed hash input — returns false". -/
theorem verify_password_raises_on_malformed :
    verify_password "password" "" = Except.error PasslibError.unknownHash ∧
      verify_password "password" "" ≠ Except.ok false := by
  refine ⟨rfl, ?_⟩
  intro hcon
  have h2 : (Except.error PasslibError.unknownHash : Except PasslibError Bool) =
      Except.ok false := hcon
  exact Except.noConfusion h2

/-! ## Errors, token service, register and login -/

/-- Outcome of a handler other than its success value: an
`HTTPException(status, detail)` raised deliberately, or an unhandled
Python exception escaping the handler (surfaced by the framework as a 500
response). -/
inductive ApiError where
  | http (status : Nat) (detail : String)
  | pythonError (name : String)
  deriving Repr, DecidableEq

/-- The signing secret (src/main.py line 27, environment default). -/
def JWT_SECRET : String := "dev-secret-change"

/-- Model of `jwt.encode` (PyJWT, external library) for the only claim
shape this application issues (a single `sub` identity claim plus the
expiry): the serialized token carries the claim, the expiry and the
signing secret, the latter standing in for the HMAC signature.  Claim
values containing the separator are outside the model's scope; no claim
settled here depends on decoding such values. -/
def jwt_encode (sub : String) (exp : Nat) (secret : String) : String :=
  "jwt." ++ sub ++ "." ++ Nat.repr exp ++ "." ++ secret

/-- Model of `create_token` (src/main.py lines 54-58): copy the claims,
add the expiry `utcnow() + timedelta(minutes=expires_minutes)` (default
`60 * 24`), and sign with the process secret.  Times are in seconds. -/
def create_token (sub : String) (now : Nat)
    (expires_minutes : Nat := 60 * 24) : String :=
  jwt_encode sub (now + expires_minutes * 60) JWT_SECRET

/-- Model of `decode_token` (src/main.py lines 61-67) over the modelled
token strings: signature failure and structural failure are translated to
the 401 "Invalid token" response, expiry to the 401 "Token expired"
response; on success the payload's `sub` claim is returned. -/
def decode_token (token : String) (now : Nat) : Except ApiError String :=
  match token.splitOn "." with
  | ["jwt", sub, expStr, secret] =>
    if secret = JWT_SECRET then
      match expStr.toNat? with
      | some exp =>
        if exp ≤ now then Except.error (ApiError.http 401 "Token expired")
        else Except.ok sub
      | none => Except.error (ApiError.http 401 "Invalid token")
    else Except.error (ApiError.http 401 "Invalid token")
  | _ => Except.error (ApiError.http 401 "Invalid token")

/-- Model of `get_documents("user", filter, limit)` with the exact-match
filter on `email` used by register, login and the authentication gate. -/
def get_documents_user (db : DB) (email : String) (limit : Nat) :
    List UserDoc :=
  (db.users.filter (fun u => u.email == email)).take limit

/-- The validated `UserRegister` request body (schemas.py lines 5-9). -/
structure RegisterPayload where
  email : String
  password : String
  name : String
  pan : String
  deriving Repr, DecidableEq

/-- Model of the `POST /auth/register` handler (src/main.py lines 95-108):
existence check via a limit-1 query, failure on a duplicate email before
any write, otherwise hash the password and insert the user document.  The
handler's outcome and the resulting store are returned as a pair. -/
def register (db : DB) (now : Nat) (salt : Nat) (payload : RegisterPayload) :
    Except ApiError String × DB :=
  match get_documents_user db payload.email 1 with
  | _ :: _ => (Except.error (ApiError.http 400 "Email already registered"), db)
  | [] =>
    let doc : UserDoc :=
      { email := payload.email
        password_hash := hash_password payload.password salt
        name := payload.name, pan := payload.pan
        created_at := now, updated_at := now }
    (Except.ok "Registered successfully",
      { db with users := db.users ++ [doc] })

/-- Model of the `POST /auth/login` handler (src/main.py lines 111-120):
limit-1 query by email, the same 401 "Invalid credentials" failure for a
missing user and for a failed verification, and on success a token whose
identity claim is the stored user's email.  A passlib error raised by
`verify` propagates out of the handler (`pythonError`). -/
def login (db : DB) (now : Nat) (email password : String) :
    Except ApiError String :=
  match get_documents_user db email 1 with
  | [] => Except.error (ApiError.http 401 "Invalid credentials")
  | u :: _ =>
    match verify_password password u.password_hash with
    | Except.error _ => Except.error (ApiError.pythonError "UnknownHashError")
    | Except.ok false => Except.error (ApiError.http 401 "Invalid credentials")
    | Except.ok true => Except.ok (create_token u.email now)

/-- C5: registering an already-stored email fails with the duplicate-email
error and leaves the store unchanged; registering a previously-unused
email succeeds, and afterwards any registration of that same email fails
without modifying the store again — success happens exactly once. -/
theorem register_spec (db : DB) (now salt : Nat) (p : RegisterPayload) :
    (db.users.filter (fun u => u.email == p.email) ≠ [] →
      register db now salt p =
        (Except.error (ApiError.http 400 "Email already registered"), db))
    ∧ (db.users.filter (fun u => u.email == p.email) = [] →
      (register db now salt p).1 = Except.ok "Registered successfully"
      ∧ ∀ now2 salt2 : Nat, ∀ p2 : RegisterPayload, p2.email = p.email →
          register (register db now salt p).2 now2 salt2 p2 =
            (Except.error (ApiError.http 400 "Email already registered"),
              (register db now salt p).2)) := by
  constructor
  · intro hne
    rcases hfe : db.users.filter (fun u => u.email == p.email) with _ | ⟨u, rest⟩
    · exact absurd hfe hne
    · simp [register, get_documents_user, hfe]
  · intro hemp
    have hreg : register db now salt p =
        (Except.ok "Registered successfully",
          { db with users := db.users ++
            [{ email := p.email
               password_hash := hash_password p.password salt
               name := p.name, pan := p.pan
               created_at := now, updated_at := now }] }) := by
      simp [register, get_documents_user, hemp]
    constructor
    · rw [hreg]
    · intro now2 salt2 p2 he2
      rw [hreg]
      simp [register, get_documents_user, List.filter_append, he2, hemp]

/-- C5 witness: on the empty store the email is unused, registration
succeeds, and an immediate re-registration of the same email fails with
the duplicate error, leaving the store as after the first success. -/
theorem register_spec_witness :
    (DB.empty.users.filter
        (fun u => u.email == ("a@b.c" : String)) = []) ∧
      (register DB.empty 0 1 ⟨"a@b.c", "pw", "Nm", "ABCDE1234F"⟩).1 =
        Except.ok "Registered successfully" ∧
      register (register DB.empty 0 1 ⟨"a@b.c", "pw", "Nm", "ABCDE1234F"⟩).2
          1 2 ⟨"a@b.c", "pw2", "Nm2", "ABCDE1234F"⟩ =
        (Except.error (ApiError.http 400 "Email already registered"),
          (register DB.empty 0 1 ⟨"a@b.c", "pw", "Nm", "ABCDE1234F"⟩).2) := by
  have h := (register_spec DB.empty 0 1 ⟨"a@b.c", "pw", "Nm", "ABCDE1234F"⟩).2 rfl
  exact ⟨rfl, h.1, h.2 1 2 ⟨"a@b.c", "pw2", "Nm2", "ABCDE1234F"⟩ rfl⟩

/-- C6: login fails with the 401 "Invalid credentials" outcome both when
no user record matches the email and when password verification returns
false — the two failures are the very same value, so the caller cannot
distinguish them — and with a correctly verifying password it returns a
token carrying the request email as the identity claim. -/
theorem login_spec (db : DB) (now : Nat) (e pw : String) :
    (db.users.filter (fun u => u.email == e) = [] →
      login db now e pw = Except.error (ApiError.http 401 "Invalid credentials"))
    ∧ (∀ u rest, (db.users.filter (fun u => u.email == e)).take 1 = u :: rest →
      (verify_password pw u.password_hash = Except.ok false →
        login db now e pw =
          Except.error (ApiError.http 401 "Invalid credentials"))
      ∧ (verify_password pw u.password_hash = Except.ok true →
        login db now e pw = Except.ok (create_token e now))) := by
  constructor
  · intro hemp
    simp [login, get_documents_user, hemp]
  · intro u rest htake
    have hue : u.email = e := by
      have hmem : u ∈ (db.users.filter (fun u => u.email == e)).take 1 := by
        rw [htake]
        exact List.mem_cons_self u rest
      have hmem2 : u ∈ db.users.filter (fun u => u.email == e) :=
        List.take_subset 1 _ hmem
      have := (List.mem_filter.mp hmem2).2
      exact eq_of_beq this
    constructor
    · intro hver
      simp [login, get_documents_user, htake, hver]
    · intro hver
      simp [login, get_documents_user, htake, hver, hue]

/-- C6 witness: on a store holding one registered user, the wrong email
and the wrong password both yield the same invalid-credentials error, and
the correct password yields the token for that email. -/
theorem login_spec_witness :
    login ⟨[⟨"a@b.c", hash_password "pw" 3, "Nm", "ABCDE1234F", 0, 0⟩], [], []⟩
        0 "z@b.c" "pw" =
      Except.error (ApiError.http 401 "Invalid credentials")
    ∧ login ⟨[⟨"a@b.c", hash_password "pw" 3, "Nm", "ABCDE1234F", 0, 0⟩], [], []⟩
        0 "a@b.c" "wrong" =
      Except.error (ApiError.http 401 "Invalid credentials")
    ∧ login ⟨[⟨"a@b.c", hash_password "pw" 3, "Nm", "ABCDE1234F", 0, 0⟩], [], []⟩
        0 "a@b.c" "pw" =
      Except.ok (create_token "a@b.c" 0) := by
  refine ⟨?_, ?_, ?_⟩
  · exact (login_spec _ 0 "z@b.c" "pw").1 (by decide)
  · exact ((login_spec _ 0 "a@b.c" "wrong").2
      ⟨"a@b.c", hash_password "pw" 3, "Nm", "ABCDE1234F", 0, 0⟩ []
      (by decide)).1 (by rfl)
  · exact ((login_spec _ 0 "a@b.c" "pw").2
      ⟨"a@b.c", hash_password "pw" 3, "Nm", "ABCDE1234F", 0, 0⟩ []
      (by decide)).2 (by rfl)

/-- C9: token issuance with the default lifetime of `60 * 24` minutes
embeds an expiry equal to the issue time plus 24 hours (in seconds). -/
theorem create_token_default_expiry (sub : String) (now : Nat) :
    create_token sub now = jwt_encode sub (now + 24 * 60 * 60) JWT_SECRET := by
  unfold create_token
  norm_num

/-! ## Authentication gate -/

/-- Model of Python `str.lower()` restricted to the ASCII characters a
header uses. -/
def pyLower (s : String) : String := String.mk (s.data.map Char.toLower)

/-- Model of Python `str.startswith(pfx)`. -/
def startsWithCh (s pfx : String) : Bool := pfx.data.isPrefixOf s.data

/-- Worker for Python `str.split()` with no argument: split on runs of
whitespace, discarding empty chunks.  `acc` holds the current chunk in
reverse. -/
def splitWsAux : List Char → List Char → List (List Char)
  | [], acc => if acc.isEmpty then [] else [acc.reverse]
  | c :: rest, acc =>
    if c.isWhitespace then
      if acc.isEmpty then splitWsAux rest [] else acc.reverse :: splitWsAux rest []
    else
      splitWsAux rest (c :: acc)

/-- Model of Python `str.split()` with no argument. -/
def pySplit (s : String) : List String := (splitWsAux s.data []).map String.mk

/-- Outcome of the header-parsing prefix of `get_current_user`
(src/main.py lines 71-73): the 401 missing-token rejection, the token
extracted by `authorization.split()[1]`, or the `IndexError` that the
subscript raises when the split yields fewer than two chunks. -/
inductive BearerParse where
  | missing
  | indexError
  | token (t : String)
  deriving Repr, DecidableEq

/-- Model of src/main.py lines 71-73: reject a falsy header or one whose
lowercasing does not start with the marker "bearer "; otherwise take
element 1 of the whitespace split. -/
def parseBearerHeader (authorization : Option String) : BearerParse :=
  match authorization with
  | none => BearerParse.missing
  | some a =>
    if a = "" then BearerParse.missing
    else if startsWithCh (pyLower a) "bearer " then
      match pySplit a with
      | _ :: t :: _ => BearerParse.token t
      | _ => BearerParse.indexError
    else BearerParse.missing

/-- The identity returned by the gate (the `User` response model without
the Mongo `_id`). -/
structure UserOut where
  email : String
  name : String
  pan : String
  deriving Repr, DecidableEq

/-- Model of `get_current_user` (src/main.py lines 70-83): parse the
bearer header, decode the token, reject a falsy `sub` claim, then resolve
the user by a limit-1 query on the `user` collection. -/
def get_current_user (db : DB) (authorization : Option String) (now : Nat) :
    Except ApiError UserOut :=
  match parseBearerHeader authorization with
  | BearerParse.missing => Except.error (ApiError.http 401 "Missing token")
  | BearerParse.indexError => Except.error (ApiError.pythonError "IndexError")
  | BearerParse.token t =>
    match decode_token t now with
    | Except.error e => Except.error e
    | Except.ok sub =>
      if sub = "" then Except.error (ApiError.http 401 "Invalid token payload")
      else
        match get_documents_user db sub 1 with
        | [] => Except.error (ApiError.http 401 "User not found")
        | u :: _ => Except.ok ⟨u.email, u.name, u.pan⟩

/-- C3: on the header "Bearer " — which carries the bearer scheme marker
but only whitespace after it — the gate raises `IndexError` at
`authorization.split()[1]`, an exception outside the enumerated
authentication failure kinds (it surfaces as a 500, not a 401). -/
theorem get_current_user_index_error :
    get_current_user DB.empty (some "Bearer ") 0 =
      Except.error (ApiError.pythonError "IndexError") := by
  rfl

theorem string_data_append (a b : String) : (a ++ b).data = a.data ++ b.data := by
  cases a
  cases b
  rfl

theorem string_ne_empty_of_data {a : String} (h : a.data ≠ []) : a ≠ "" := by
  intro hcon
  exact h (by rw [hcon])

theorem splitWsAux_no_ws (l : List Char) :
    ∀ acc : List Char, (∀ c ∈ l, c.isWhitespace = false) →
      splitWsAux l acc =
        if (acc.reverse ++ l).isEmpty then [] else [acc.reverse ++ l] := by
  induction l with
  | nil =>
    intro acc _
    simp [splitWsAux, List.isEmpty_iff]
  | cons c rest ih =>
    intro acc h
    have hc : c.isWhitespace = false := h c (List.mem_cons_self c rest)
    have hrest : ∀ x ∈ rest, x.isWhitespace = false :=
      fun x hx => h x (List.mem_cons_of_mem c hx)
    have hstep : splitWsAux (c :: rest) acc = splitWsAux rest (c :: acc) := by
      simp [splitWsAux, hc]
    rw [hstep, ih (c :: acc) hrest]
    simp [List.reverse_cons, List.append_assoc]

/-- C10: the bearer scheme marker is matched case-insensitively — for a
nonempty whitespace-free token, the headers built with "Bearer ",
"bearer " and "BEARER " all pass the scheme check and all extract that
same token. -/
theorem bearer_scheme_case_insensitive (tok : String) (h1 : tok ≠ "")
    (h2 : ∀ c ∈ tok.data, c.isWhitespace = false) :
    parseBearerHeader (some ("Bearer " ++ tok)) = BearerParse.token tok
    ∧ parseBearerHeader (some ("bearer " ++ tok)) = BearerParse.token tok
    ∧ parseBearerHeader (some ("BEARER " ++ tok)) = BearerParse.token tok := by
  have hde : tok.data ≠ [] := by
    intro hcon
    exact h1 (string_eq_of_data_eq (by rw [hcon]))
  have htoksplit : splitWsAux tok.data [] = [tok.data] := by
    rw [splitWsAux_no_ws tok.data [] h2]
    simp [List.isEmpty_iff, hde]
  have main : ∀ (scheme : String) (c0 : List Char),
      (pyLower scheme).data = "bearer ".data →
      splitWsAux (scheme ++ tok).data [] = c0 :: splitWsAux tok.data [] →
      parseBearerHeader (some (scheme ++ tok)) = BearerParse.token tok := by
    intro scheme c0 hlow hsplit
    have hda : (scheme ++ tok).data = scheme.data ++ tok.data :=
      string_data_append scheme tok
    have hne : (scheme ++ tok) ≠ "" := by
      apply string_ne_empty_of_data
      rw [hda]
      intro hcon
      rcases List.append_eq_nil.mp hcon with ⟨_, h2c⟩
      exact hde h2c
    have hsw : startsWithCh (pyLower (scheme ++ tok)) "bearer " = true := by
      unfold startsWithCh pyLower
      show "bearer ".data.isPrefixOf ((scheme ++ tok).data.map Char.toLower) = true
      rw [hda, List.map_append]
      have : scheme.data.map Char.toLower = "bearer ".data := hlow
      rw [this]
      exact isPrefixOf_append_self _ _
    simp only [parseBearerHeader]
    rw [if_neg hne, if_pos hsw]
    unfold pySplit
    rw [hsplit, htoksplit]
    rfl
  refine ⟨?_, ?_, ?_⟩
  · exact main "Bearer " "Bearer".data (by decide) (by rw [string_data_append]; rfl)
  · exact main "bearer " "bearer".data (by decide) (by rw [string_data_append]; rfl)
  · exact main "BEARER " "BEARER".data (by decide) (by rw [string_data_append]; rfl)

/-- C10 witness: the three spellings of the scheme on a concrete token. -/
theorem bearer_scheme_case_insensitive_witness :
    ("abc" ≠ "" ∧ ∀ c ∈ "abc".data, c.isWhitespace = false)
    ∧ parseBearerHeader (some ("Bearer " ++ "abc")) = BearerParse.token "abc"
    ∧ parseBearerHeader (some ("bearer " ++ "abc")) = BearerParse.token "abc"
    ∧ parseBearerHeader (some ("BEARER " ++ "abc")) = BearerParse.token "abc" := by
  have h := bearer_scheme_case_insensitive "abc" (by decide) (by decide)
  exact ⟨⟨by decide, by decide⟩, h.1, h.2.1, h.2.2⟩

/-! ## Receipts and payment endpoints -/

/-- Model of `get_documents("receipt", filter, limit)` with the
exact-match filter on `user_email`. -/
def get_documents_receipt (db : DB) (email : String) (limit : Nat) :
    List ReceiptDoc :=
  (db.receipts.filter (fun r => r.user_email == email)).take limit

/-- Model of the `GET /receipts` handler `list_receipts` (src/main.py
lines 151-168): up to 100 receipt documents for the user in store order.
The mapping into the public `Receipt` shape copies the listed fields
one-to-one (every stored document carries them), so the listing is
modelled by the documents themselves. -/
def list_receipts (db : DB) (user_email : String) : List ReceiptDoc :=
  get_documents_receipt db user_email 100

/-- Model of the `POST /pay/demo` handler `pay_demo` (src/main.py lines
171-183): synthesize the receipt record with the time-derived reference,
persist it via `create_document`, and return it. -/
def pay_demo (db : DB) (now : Nat) (user_email : String) (amount : Int)
    (regime : String) (allocation : SectorMap) : ReceiptDoc × DB :=
  let r : ReceiptDoc :=
    { user_email := user_email, amount := amount, currency := "INR"
      regime := regime, allocation := allocation, payment_method := "demo"
      reference := "DEMO-" ++ Nat.repr now
      created_at := now, updated_at := now }
  (r, { db with receipts := db.receipts ++ [r] })

/-- C7 (amended): the demo payment returns a receipt with
payment_method "demo", currency "INR", the requested amount, regime and
allocation, and the reference "DEMO-" followed by the decimal seconds
timestamp; the receipt is persisted and appears in the user's receipts
listing PROVIDED the user had fewer than 100 stored receipts (the listing
returns only the first 100 matches in store order). -/
theorem pay_demo_receipt (db : DB) (now : Nat) (u : String) (amount : Int)
    (regime : String) (alloc : SectorMap)
    (h : (db.receipts.filter (fun r => r.user_email == u)).length < 100) :
    (pay_demo db now u amount regime alloc).1.payment_method = "demo"
    ∧ (pay_demo db now u amount regime alloc).1.currency = "INR"
    ∧ (pay_demo db now u amount regime alloc).1.amount = amount
    ∧ (pay_demo db now u amount regime alloc).1.regime = regime
    ∧ (pay_demo db now u amount regime alloc).1.allocation = alloc
    ∧ (pay_demo db now u amount regime alloc).1.reference =
        "DEMO-" ++ Nat.repr now
    ∧ (pay_demo db now u amount regime alloc).1 ∈
        list_receipts (pay_demo db now u amount regime alloc).2 u := by
  refine ⟨rfl, rfl, rfl, rfl, rfl, rfl, ?_⟩
  unfold list_receipts get_documents_receipt pay_demo
  simp only [List.filter_append]
  have hfr : List.filter (fun r => r.user_email == u)
      [({ user_email := u, amount := amount, currency := "INR"
          regime := regime, allocation := alloc, payment_method := "demo"
          reference := "DEMO-" ++ Nat.repr now
          created_at := now, updated_at := now } : ReceiptDoc)] =
      [{ user_email := u, amount := amount, currency := "INR"
         regime := regime, allocation := alloc, payment_method := "demo"
         reference := "DEMO-" ++ Nat.repr now
         created_at := now, updated_at := now }] := by
    simp
  rw [hfr]
  have hlen : ((db.receipts.filter (fun r => r.user_email == u)) ++
      [({ user_email := u, amount := amount, currency := "INR"
          regime := regime, allocation := alloc, payment_method := "demo"
          reference := "DEMO-" ++ Nat.repr now
          created_at := now, updated_at := now } : ReceiptDoc)]).length ≤ 100 := by
    rw [List.length_append, List.length_singleton]
    omega
  rw [List.take_of_length_le hlen]
  exact List.mem_append_right _ (List.mem_singleton_self _)

/-- C7 witness: a demo payment on the empty store has all the claimed
receipt fields and shows up in the listing. -/
theorem pay_demo_receipt_witness :
    ((DB.empty.receipts.filter (fun r => r.user_email == "u")).length < 100)
    ∧ (pay_demo DB.empty 3 "u" 500 "new" [("health", 100)]).1.payment_method =
        "demo"
    ∧ (pay_demo DB.empty 3 "u" 500 "new" [("health", 100)]).1.currency = "INR"
    ∧ (pay_demo DB.empty 3 "u" 500 "new" [("health", 100)]).1.amount = 500
    ∧ (pay_demo DB.empty 3 "u" 500 "new" [("health", 100)]).1.regime = "new"
    ∧ (pay_demo DB.empty 3 "u" 500 "new" [("health", 100)]).1.allocation =
        [("health", 100)]
    ∧ (pay_demo DB.empty 3 "u" 500 "new" [("health", 100)]).1.reference =
        "DEMO-" ++ Nat.repr 3
    ∧ (pay_demo DB.empty 3 "u" 500 "new" [("health", 100)]).1 ∈
        list_receipts (pay_demo DB.empty 3 "u" 500 "new" [("health", 100)]).2
          "u" := by
  have h := pay_demo_receipt DB.empty 3 "u" 500 "new" [("health", 100)]
    (by decide)
  exact ⟨by decide, h.1, h.2.1, h.2.2.1, h.2.2.2.1, h.2.2.2.2.1,
    h.2.2.2.2.2.1, h.2.2.2.2.2.2⟩

/-- A pre-existing receipt used to fill the store for the C7
counterexample. -/
def receiptFill : ReceiptDoc :=
  { user_email := "u", amount := 1, currency := "INR", regime := "new"
    allocation := [], payment_method := "demo", reference := "DEMO-0"
    created_at := 0, updated_at := 0 }

/-- A store already holding 100 receipts for user "u". -/
def dbFullReceipts : DB := ⟨[], [], List.replicate 100 receiptFill⟩

theorem filter_replicate_true {α : Type} (p : α → Bool) (a : α) (n : Nat)
    (hp : p a = true) : (List.replicate n a).filter p = List.replicate n a := by
  induction n with
  | zero => rfl
  | succ k ih => simp [List.replicate_succ, List.filter_cons, hp, ih]

/-- C7 counterexample: for a user who already has 100 stored receipts the
demo payment's new receipt is persisted but does NOT appear in that
user's receipts listing (the limit-100 query returns the 100 older
records), refuting the unconditional claim. -/
theorem pay_demo_receipt_capped :
    (pay_demo dbFullReceipts 5 "u" 500 "new" [("health", 100)]).1 ∉
      list_receipts (pay_demo dbFullReceipts 5 "u" 500 "new"
        [("health", 100)]).2 "u" := by
  intro hmem
  have hlist : list_receipts (pay_demo dbFullReceipts 5 "u" 500 "new"
      [("health", 100)]).2 "u" = List.replicate 100 receiptFill := by
    unfold list_receipts get_documents_receipt pay_demo dbFullReceipts
    simp only
    rw [List.filter_append, filter_replicate_true _ _ _ (by decide)]
    rw [List.take_append_of_le_length (by simp)]
    simp [List.take_replicate]
  rw [hlist] at hmem
  have := List.eq_of_mem_replicate hmem
  have href : ("DEMO-" ++ Nat.repr 5) = "DEMO-0" := congrArg ReceiptDoc.reference this
  exact absurd href (by decide)

/-! ## External gateway order creation -/

/-- The gateway credentials read from the environment (src/main.py lines
189-190). -/
structure RazorpayEnv where
  key_id : Option String
  key_secret : Option String
  deriving Repr, DecidableEq

/-- The gateway's order response (schemas.py lines 56-60). -/
structure OrderResponse where
  id : String
  amount : Int
  currency : String
  status : String
  deriving Repr, DecidableEq

/-- Python falsiness of an optional string: absent or empty. -/
def optFalsy : Option String → Bool
  | none => true
  | some s => s == ""

/-- Model of the `POST /pay/razorpay/order` handler (src/main.py lines
187-207): fail with the 400 configuration error when either credential is
falsy, before any other work; otherwise delegate to the external gateway
(an opaque remote call, its response passed in as `gatewayOrder`) and
return its response.  Neither path writes to the document store, so the
store is returned unchanged alongside the outcome. -/
def create_razorpay_order (env : RazorpayEnv) (db : DB)
    (gatewayOrder : OrderResponse) : Except ApiError OrderResponse × DB :=
  if optFalsy env.key_id || optFalsy env.key_secret then
    (Except.error (ApiError.http 400 "Razorpay keys not configured"), db)
  else
    (Except.ok gatewayOrder, db)

/-- C8: with unconfigured (absent or empty) gateway credentials, order
creation fails with the configuration error and the returned store is
exactly the input store — no collection is modified. -/
theorem create_razorpay_order_not_configured (env : RazorpayEnv) (db : DB)
    (gatewayOrder : OrderResponse)
    (h : (optFalsy env.key_id || optFalsy env.key_secret) = true) :
    create_razorpay_order env db gatewayOrder =
      (Except.error (ApiError.http 400 "Razorpay keys not configured"), db) := by
  unfold create_razorpay_order
  rw [if_pos h]

/-- C8 witness: both credentials absent on a concrete store. -/
theorem create_razorpay_order_not_configured_witness :
    ((optFalsy (none : Option String) || optFalsy (none : Option String)) = true)
    ∧ create_razorpay_order ⟨none, none⟩ DB.empty ⟨"ord", 500, "INR", "created"⟩ =
      (Except.error (ApiError.http 400 "Razorpay keys not configured"),
        DB.empty) :=
  ⟨rfl, create_razorpay_order_not_configured ⟨none, none⟩ DB.empty
    ⟨"ord", 500, "INR", "created"⟩ rfl⟩

end TaxPay
